import Mathlib

/-!
Shallow embedding of the freecad-mcp RPC bridge core
(`src/addon/FreeCADMCP/rpc_server/rpc_server.py` and
`src/addon/FreeCADMCP/rpc_server/serialize.py`) together with theorems
settling the frozen claims about it.

Conventions of the embedding:
* Python numbers (int/float) are modelled as rationals `ℚ`.
* The JSON/XML-RPC transport values are the inductive `WireValue`.
* Live FreeCAD property values are the inductive `NativeValue`; values the
  codec does not recognize are `NativeValue.other s` carrying their Python
  `str(value)` rendering, and Python `None` is `NativeValue.pyNone`.
* Code that can raise is modelled in `Except String`, the string being the
  exception message.
* The FreeCAD kernel (document store, `addObject`, recompute, the
  `ObjectsFem` constructors) is external to the repository; where a claim
  needs it, it enters as an explicit parameter, and `recompute` is the
  identity on the modelled state.
-/

namespace FreeCADMCP

/-- Transport-neutral wire values (the JSON-compatible representation that
crosses the XML-RPC boundary). `null` is Python `None` appearing in a
serialized result. -/
inductive WireValue where
  | num (q : ℚ)
  | str (s : String)
  | bool (b : Bool)
  | dict (entries : List (String × WireValue))
  | list (items : List WireValue)
  | null

/-- A 3D vector, mirroring `FreeCAD.Vector`. The kernel type is treated as a
plain record of its three coordinates. -/
structure Vector where
  x : ℚ
  y : ℚ
  z : ℚ
  deriving DecidableEq

/-- A rotation, mirroring `FreeCAD.Rotation` as the axis/angle pair the bridge
reads and writes (`value.Axis`, `value.Angle`). -/
structure Rotation where
  Axis : Vector
  Angle : ℚ
  deriving DecidableEq

/-- A placement, mirroring `FreeCAD.Placement` as the base/rotation pair the
bridge reads and writes (`value.Base`, `value.Rotation`). -/
structure Placement where
  Base : Vector
  Rotation : Rotation
  deriving DecidableEq

/-- Live FreeCAD property values as seen by the Value Codec
(`serialize.py:serialize_value`). `color` is `App.Color`, a 4-tuple of
floats. `other s` is any value outside the recognized types, carrying its
Python `str(value)` form; `pyNone` is Python `None` (whose `str` is
`"None"`). -/
inductive NativeValue where
  | num (q : ℚ)
  | str (s : String)
  | bool (b : Bool)
  | vector (v : Vector)
  | rotation (r : Rotation)
  | placement (p : Placement)
  | listVal (items : List NativeValue)
  | color (r g b a : ℚ)
  | pyNone
  | other (s : String)

/-- Encoding of an `App.Vector`: the `{"x": .., "y": .., "z": ..}` mapping
emitted by `serialize_value`. -/
def serializeVector (v : Vector) : WireValue :=
  .dict [("x", .num v.x), ("y", .num v.y), ("z", .num v.z)]

/-- Encoding of an `App.Rotation`: the `{"Axis": {...}, "Angle": ..}` mapping
emitted by `serialize_value`. -/
def serializeRotation (r : Rotation) : WireValue :=
  .dict
    [("Axis",
      .dict [("x", .num r.Axis.x), ("y", .num r.Axis.y), ("z", .num r.Axis.z)]),
     ("Angle", .num r.Angle)]

mutual

/-- Model of `serialize.py:serialize_value`, branch for branch: primitives pass
through, vectors/rotations/placements become mappings (a placement
recursively encodes its `Base` and `Rotation`, which are a vector and a
rotation, so the recursive calls are exactly `serializeVector` /
`serializeRotation`), lists encode element-wise, a color flattens to its
numeric 4-tuple, and everything else falls back to its `str(value)` form. -/
def serialize_value : NativeValue → WireValue
  | .num q => .num q
  | .str s => .str s
  | .bool b => .bool b
  | .vector v => serializeVector v
  | .rotation r => serializeRotation r
  | .placement p =>
      .dict [("Base", serializeVector p.Base),
             ("Rotation", serializeRotation p.Rotation)]
  | .listVal items => .list (serializeValueList items)
  | .color r g b a => .list [.num r, .num g, .num b, .num a]
  | .pyNone => .str "None"
  | .other s => .str s

/-- Element-wise encoding of a Python list/tuple by `serialize_value`. -/
def serializeValueList : List NativeValue → List WireValue
  | [] => []
  | v :: vs => serialize_value v :: serializeValueList vs

end

/-- Whether a native value is one of the types `serialize_value` recognizes
with a structured encoding (everything except the `str(value)` fallback). -/
def isRecognized : NativeValue → Bool
  | .num _ | .str _ | .bool _ | .vector _ | .rotation _ | .placement _
  | .listVal _ | .color _ _ _ _ => true
  | .pyNone | .other _ => false

/-- Python `dict.get(k, d)` on an association list of wire values. -/
def getD (es : List (String × WireValue)) (k : String) (d : WireValue) :
    WireValue :=
  match es.lookup k with
  | some v => v
  | none => d

/-- The keys of a wire mapping, in order. -/
def wireKeys : WireValue → List String
  | .dict es => es.map Prod.fst
  | _ => []

/-- The entries of a wire mapping (`[]` for non-mappings; only used under a
`dict` guard). -/
def WireValue.entriesOf : WireValue → List (String × WireValue)
  | .dict es => es
  | _ => []

/-- Calling `.get` on a value that must be a mapping: raises
(`AttributeError`) when it is not. The message stands in for Python's
"object has no attribute" text. -/
def dictEntries : WireValue → Except String (List (String × WireValue))
  | .dict es => .ok es
  | _ => .error "value has no attribute get"

/-- Numeric conversion as `FreeCAD.Vector` / `FreeCAD.Rotation` constructor
arguments perform it: numbers pass through, booleans coerce (Python `bool`
is an `int`), anything else raises. -/
def asNum : WireValue → Except String ℚ
  | .num q => .ok q
  | .bool b => .ok (if b then 1 else 0)
  | _ => .error "unsupported operand type for numeric conversion"

/-- The `Placement` decode of `rpc_server.py:set_object_property` (lines
59-72): position from `val.get("Base", val.get("Position", {}))` with each
coordinate defaulting to 0, rotation axis from `Rotation.Axis` with `x`,`y`
defaulting to 0 and `z` defaulting to 1, angle defaulting to 0. -/
def decodePlacement (val : List (String × WireValue)) :
    Except String Placement := do
  let pos := getD val "Base" (getD val "Position" (.dict []))
  let rot := getD val "Rotation" (.dict [])
  let posE ← dictEntries pos
  let px ← asNum (getD posE "x" (.num 0))
  let py ← asNum (getD posE "y" (.num 0))
  let pz ← asNum (getD posE "z" (.num 0))
  let rotE ← dictEntries rot
  let axisE ← dictEntries (getD rotE "Axis" (.dict []))
  let ax ← asNum (getD axisE "x" (.num 0))
  let ay ← asNum (getD axisE "y" (.num 0))
  let az ← asNum (getD axisE "z" (.num 1))
  let ang ← asNum (getD rotE "Angle" (.num 0))
  pure ⟨⟨px, py, pz⟩, ⟨⟨ax, ay, az⟩, ang⟩⟩

/-- The vector decode of `rpc_server.py:set_object_property` (line 75):
`FreeCAD.Vector(val.get("x", 0), val.get("y", 0), val.get("z", 0))`. -/
def decodeVector (val : List (String × WireValue)) : Except String Vector := do
  let x ← asNum (getD val "x" (.num 0))
  let y ← asNum (getD val "y" (.num 0))
  let z ← asNum (getD val "z" (.num 0))
  pure ⟨x, y, z⟩

/-- A value stored in an object's property slot after an assignment by the
bridge: a live native value, a resolved object reference (stored by the name
of the referenced object), a resolved reference list of
(object-name, face) pairs, a tuple of floats (view colors), or the raw wire
value for the plain `setattr(obj, prop, val)` branches, whose kernel-side
coercion is outside this repository. -/
inductive StoredVal where
  | native (v : NativeValue)
  | objRef (name : String)
  | refList (refs : List (String × WireValue))
  | floatTuple (l : List ℚ)
  | raw (w : WireValue)

/-- A live document object as the Property Applier sees it: its kernel name,
type id, declared property list (`obj.PropertiesList`), current property
store, and the optional view/display record (`obj.ViewObject`), itself a
property store. -/
structure DocObject where
  Name : String
  TypeId : String
  PropertiesList : List String
  props : List (String × StoredVal) := []
  viewObject : Option (List (String × StoredVal)) := none

/-- Python `setattr` on an object's property store: record `prop := v`,
overwriting any previous entry. -/
def setStored (store : List (String × StoredVal)) (prop : String)
    (v : StoredVal) : List (String × StoredVal) :=
  (prop, v) :: store.filter (fun e => e.1 ≠ prop)

/-- Python `setattr(obj, prop, v)` on the object's data properties. -/
def DocObject.setProp (obj : DocObject) (prop : String) (v : StoredVal) :
    DocObject :=
  { obj with props := setStored obj.props prop v }

/-- Whether `isinstance(getattr(obj, prop), FreeCAD.Vector)` holds: the
property's current value is a live vector. -/
def DocObject.currentIsVector (obj : DocObject) (prop : String) : Bool :=
  match obj.props.lookup prop with
  | some (.native (.vector _)) => true
  | _ => false

/-- A document: a named container holding its registered objects in creation
order (`doc.Objects`). -/
structure Document where
  Name : String
  objects : List DocObject := []

/-- Lookup `doc.getObject(name)`: the registered object of that name, if any. -/
def Document.getObject (d : Document) (name : String) : Option DocObject :=
  d.objects.find? (fun o => o.Name == name)

/-- Conversion `float(c)` applied to a color component inside
`tuple(float(c) for c in val)`: numbers and booleans convert, anything else
raises. (Python `float` also parses numeric strings; no caller of this
branch sends strings, and that parse is not modelled.) -/
def asFloat : WireValue → Except String ℚ := asNum

/-- Model of `tuple(float(c) for c in val)` over a wire list. -/
def floatsOf : List WireValue → Except String (List ℚ)
  | [] => .ok []
  | c :: cs => do
      let q ← asFloat c
      let qs ← floatsOf cs
      pure (q :: qs)

/-- Destructure one element of a `References` wire list as the
`for ref_name, face in val` unpacking does: a 2-element sequence whose first
element is the object name. Anything else raises. -/
def asRefPair : WireValue → Except String (String × WireValue)
  | .list [.str n, f] => .ok (n, f)
  | _ => .error "cannot unpack reference pair"

/-- Resolve a `References` wire list against the document as the loops at
`rpc_server.py` lines 84-91 and 334-340 do: each pair's name is looked up
with `doc.getObject`; the first miss raises
`Referenced object '...' not found.`. -/
def resolveRefs (doc : Document) :
    List WireValue → Except String (List (String × WireValue))
  | [] => .ok []
  | item :: rest => do
      let (name, face) ← asRefPair item
      match doc.getObject name with
      | some _ => do
          let rs ← resolveRefs doc rest
          pure ((name, face) :: rs)
      | none => .error ("Referenced object '" ++ name ++ "' not found.")

/-- Apply the `ViewObject` sub-mapping (lines 96-101): `ShapeColor` entries
become float tuples, other entries are set raw on the view record. -/
def applyViewEntries (view : List (String × StoredVal)) :
    List (String × WireValue) → Except String (List (String × StoredVal))
  | [] => .ok view
  | (k, v) :: rest =>
      if k == "ShapeColor" then
        match v with
        | .list items => do
            let qs ← floatsOf items
            applyViewEntries (setStored view k (.floatTuple qs)) rest
        | _ => .error "ShapeColor value is not iterable"
      else
        applyViewEntries (setStored view k (.raw v)) rest

/-- One iteration of the loop body of `set_object_property` (lines 57-103),
without the outer `except` wrapper: classify the property and apply it.
An `.error` is the message of the exception the branch raised. The final
`setattr` branches store the raw wire value; their kernel-side behavior is
external and modelled as always succeeding. -/
def applyProperty (doc : Document) (obj : DocObject) (prop : String)
    (val : WireValue) : Except String DocObject :=
  if obj.PropertiesList.contains prop then
    if prop == "Placement" && (match val with | .dict _ => true | _ => false) then
      match decodePlacement val.entriesOf with
      | .ok pl => .ok (obj.setProp prop (.native (.placement pl)))
      | .error e => .error e
    else if obj.currentIsVector prop
        && (match val with | .dict _ => true | _ => false) then
      match decodeVector val.entriesOf with
      | .ok v => .ok (obj.setProp prop (.native (.vector v)))
      | .error e => .error e
    else if ["Base", "Tool", "Source", "Profile"].contains prop
        && (match val with | .str _ => true | _ => false) then
      match val with
      | .str refName =>
          match doc.getObject refName with
          | some _ => .ok (obj.setProp prop (.objRef refName))
          | none =>
              .error ("Referenced object '" ++ refName ++ "' not found.")
      | _ => .ok obj
    else if prop == "References"
        && (match val with | .list _ => true | _ => false) then
      match val with
      | .list items =>
          match resolveRefs doc items with
          | .ok refs => .ok (obj.setProp prop (.refList refs))
          | .error e => .error e
      | _ => .ok obj
    else
      .ok (obj.setProp prop (.raw val))
  else if prop == "ShapeColor"
      && (match val with | .list _ => true | _ => false)
      && obj.viewObject.isSome then
    match val, obj.viewObject with
    | .list items, some view => do
        let qs ← floatsOf items
        .ok { obj with viewObject := some (setStored view prop (.floatTuple qs)) }
    | _, _ => .ok obj
  else if prop == "ViewObject"
      && (match val with | .dict _ => true | _ => false)
      && obj.viewObject.isSome then
    match val, obj.viewObject with
    | .dict entries, some view => do
        let view1 ← applyViewEntries view entries
        .ok { obj with viewObject := some view1 }
    | _, _ => .ok obj
  else
    .ok (obj.setProp prop (.raw val))

/-- Model of `rpc_server.py:set_object_property` (lines 53-106): apply the property
map entry by entry. Each iteration's body is wrapped in
`try ... except Exception as e: raise AttributeError(f"Property '{prop}'
assignment error: {e}")` — so the FIRST failing property re-raises, and the
remaining entries of the map are never processed. The result is the object
after the assignments that did run, together with the message of the raised
`AttributeError` when one was raised. -/
def setObjectProperty (doc : Document) (obj : DocObject) :
    List (String × WireValue) → DocObject × Option String
  | [] => (obj, none)
  | (prop, val) :: rest =>
      match applyProperty doc obj prop val with
      | .ok obj1 => setObjectProperty doc obj1 rest
      | .error e =>
          (obj, some ("Property '" ++ prop ++ "' assignment error: " ++ e))

/-- A Python value a GUI task returns: `True` on success, an error string on
failure, or `None`. (Screenshot tasks return base64 strings, also covered by
`strV`.) -/
inductive PyRes where
  | trueV
  | strV (s : String)
  | noneV
  deriving DecidableEq

/-- Whether a task's returned value is Python `None`
(the `if res is not None` test of `process_gui_tasks`). -/
def isNoneRes : PyRes → Bool
  | .noneV => true
  | _ => false

/-- A task on the GUI queue: a callable run by the owning context. Calling it
transforms the owning context's state and either returns a value or raises
with a message. State mutated before a raise persists. -/
def Task (σ : Type) : Type := σ → σ × Except String PyRes

/-- One iteration of the drain loop of `rpc_server.py:process_gui_tasks`
(lines 30-40): run the task; if it returns a non-`None` value, publish it on
the response queue; if it returns `None`, publish nothing; if it raises,
publish the `Unhandled exception in GUI task: ...` message. -/
def processOneTask {σ : Type} (t : Task σ) (s : σ) (resp : List PyRes) :
    σ × List PyRes :=
  match t s with
  | (s1, .ok r) => (s1, if isNoneRes r then resp else resp ++ [r])
  | (s1, .error e) =>
      (s1, resp ++ [.strV ("Unhandled exception in GUI task: " ++ e)])

/-- The drain loop of `process_gui_tasks`: tasks on the request queue are
taken and run one at a time, in queue (submission) order, on the single
owning context; the loop then re-arms its 500ms timer (not modelled — a
drain of the queue snapshot is). -/
def processGuiTasks {σ : Type} :
    List (Task σ) → σ → List PyRes → σ × List PyRes
  | [], s, resp => (s, resp)
  | t :: ts, s, resp =>
      let (s1, r1) := processOneTask t s resp
      processGuiTasks ts s1 r1

/-- A task that appends its id to a shared log and returns `True` — the
instrumented task of the submission-order test. -/
def logTask (i : ℕ) : Task (List ℕ) :=
  fun log => (log ++ [i], .ok .trueV)

/-- The `Object` dataclass of `rpc_server.py` (lines 45-50): a wire-level
create/edit request. -/
structure Object where
  name : String
  type : Option String := none
  analysis : Option String := none
  properties : List (String × WireValue) := []

/-- Kernel document lookup: `FreeCAD.listDocuments()` entry lookup / `FreeCAD.getDocument(name)`
against the kernel's open-document table, modelled as a list. -/
def getDocument (docs : List Document) (name : String) : Option Document :=
  docs.find? (fun d => d.Name == name)

/-- Replace the document of the given name in the open-document table. -/
def updateDoc (docs : List Document) (name : String) (d : Document) :
    List Document :=
  docs.map (fun old => if old.Name == name then d else old)

/-- Python `s.startswith(pre)`, written over the character lists so that it
evaluates by kernel reduction. -/
def pyStartsWith (s pre : String) : Bool :=
  pre.data.isPrefixOf s.data

/-- The FreeCAD kernel operations `_create_object_gui` invokes that are
external to this repository: `doc.addObject(type, name)` returning a fresh
object whose declared property list the kernel chooses from the type, and
the two `Fem::` branches (lines 267-304), which call into `ObjectsFem` /
`femmesh` and are modelled as one external transition on the document. -/
structure Kernel where
  addObject : String → String → DocObject
  femBranch : Document → Object → Document × PyRes

/-- Model of `rpc_server.py:FreeCADRPC._create_object_gui` (lines 263-316) for the
open-document table `docs`. The two `Fem::` branches delegate to the kernel.
The generic branch (lines 306-309): `doc.addObject` registers the fresh
object, then `set_object_property` runs; if it raises, the enclosing
`except` (lines 313-316) returns the
`Failed to create object ... : ...` message — WITHOUT removing the object
that `addObject` registered. A missing document makes `FreeCAD.getDocument`
raise, which the same `except` turns into the failure message with the
kernel's text (stood in for here by `Unknown document`). `doc.recompute()`
is the external geometry engine, modelled as the identity. -/
def createObjectGui (k : Kernel) (docs : List Document) (docName : String)
    (o : Object) : List Document × PyRes :=
  let ty := o.type.getD ""
  match getDocument docs docName with
  | none =>
      (docs, .strV ("Failed to create object '" ++ o.name ++ "' in '"
        ++ docName ++ "': Unknown document: " ++ docName))
  | some doc =>
      if (ty == "Fem::FemMeshGmsh" && o.analysis.isSome)
          || pyStartsWith ty "Fem::" then
        let (doc1, res) := k.femBranch doc o
        (updateDoc docs docName doc1, res)
      else
        let res := k.addObject ty o.name
        let doc1 : Document := { doc with objects := doc.objects ++ [res] }
        let (res1, fail) := setObjectProperty doc1 res o.properties
        let doc2 : Document := { doc with objects := doc.objects ++ [res1] }
        match fail with
        | some e =>
            (updateDoc docs docName doc2,
             .strV ("Failed to create object '" ++ o.name ++ "' in '"
               ++ docName ++ "': " ++ e))
        | none => (updateDoc docs docName doc2, .trueV)

/-- Replace the object of the given name inside a document. -/
def Document.setObject (d : Document) (name : String) (o : DocObject) :
    Document :=
  { d with objects := d.objects.map (fun old =>
      if old.Name == name then o else old) }

/-- Stand-in for the message of the `NameError` the external
`FreeCAD.getDocument(name)` raises for an unknown document name (the same
text stands in for it in `createObjectGui`'s missing-document branch). -/
def unknownDocMsg (name : String) : String :=
  "Unknown document: " ++ name

/-- Model of `rpc_server.py:FreeCADRPC._edit_object_gui` (lines 318-352).
The bare `FreeCAD.getDocument(doc_name)` call at line 319 sits OUTSIDE the
`try:` and raises `NameError` for a missing document, so a missing document
propagates a raise out of the function (an `.error` result here) and the
`if not doc:` guard at lines 320-322, which would return the
`Document '...' not found.` message, is dead code: `getDocument` never
yields a falsy document object once it has returned. `doc.getObject` (line
324) genuinely returns `None` for a missing object, so that `not found`
branch is live. Otherwise a `References` pre-pass resolves and assigns the
reference list (removing it from the map), then `set_object_property`
applies the rest; any raise inside the `try` block (lines 331-352) is
caught there and returned as `str(e)`. -/
def editObjectGui (docs : List Document) (docName : String) (o : Object) :
    Except String (List Document × PyRes) :=
  match getDocument docs docName with
  | none => .error (unknownDocMsg docName)
  | some doc =>
      match doc.getObject o.name with
      | none =>
          .ok (docs, .strV ("Object '" ++ o.name ++ "' not found in document '"
            ++ docName ++ "'.\n"))
      | some objIns =>
          -- `hasattr(obj_ins, "References")` is modelled as the property
          -- being declared on the live object.
          if objIns.PropertiesList.contains "References"
              && (o.properties.lookup "References").isSome then
            match getD o.properties "References" (.list []) with
            | .list items =>
                match resolveRefs doc items with
                | .error e => .ok (docs, .strV e)
                | .ok refs =>
                    let objIns1 := objIns.setProp "References" (.refList refs)
                    let props1 :=
                      o.properties.filter (fun e => e.1 ≠ "References")
                    let (objIns2, fail) := setObjectProperty doc objIns1 props1
                    let docs1 :=
                      updateDoc docs docName (doc.setObject o.name objIns2)
                    match fail with
                    | some e => .ok (docs1, .strV e)
                    | none => .ok (docs1, .trueV)
            | _ => .ok (docs, .strV "reference list is not iterable")
          else
            let (objIns2, fail) := setObjectProperty doc objIns o.properties
            let docs1 := updateDoc docs docName (doc.setObject o.name objIns2)
            match fail with
            | some e => .ok (docs1, .strV e)
            | none => .ok (docs1, .trueV)

/-- The uniform RPC envelope: `{"success": True, "object_name": ...}` or
`{"success": False, "error": res}`. -/
inductive RpcResult where
  | success (objectName : String)
  | failure (error : PyRes)
  deriving DecidableEq

/-- Model of `rpc_server.py:FreeCADRPC.edit_object` (lines 141-153): build the
request `Object` from `properties.get("Properties", {})`, run the GUI task
(the queue round trip is modelled as a direct call into the owning
context), and wrap the published result: `True` becomes the success
envelope, anything else the failure envelope. When `_edit_object_gui`
raises (missing document), the raise propagates out of the task to
`process_gui_tasks`, whose handler (lines 36-40) publishes
`Unhandled exception in GUI task: <message>`; that string is what
`edit_object` reads off the response queue and wraps in the failure
envelope. -/
def edit_object (docs : List Document) (docName objName : String)
    (properties : List (String × WireValue)) : List Document × RpcResult :=
  let o : Object :=
    { name := objName,
      properties := (getD properties "Properties" (.dict [])).entriesOf }
  match editObjectGui docs docName o with
  | .ok (docs1, .trueV) => (docs1, .success objName)
  | .ok (docs1, r) => (docs1, .failure r)
  | .error e =>
      (docs, .failure (.strV ("Unhandled exception in GUI task: " ++ e)))

/-- Derived geometry of an object's `Shape`, as `serialize_shape` reads it. -/
structure Shape where
  Volume : ℚ
  Area : ℚ
  VertexCount : ℕ
  EdgeCount : ℕ
  FaceCount : ℕ

/-- The view/display record as `serialize_view_object` reads it. -/
structure ViewRecord where
  ShapeColor : NativeValue
  Transparency : ℚ
  Visibility : Bool

/-- A live document object as `serialize.py:serialize_object` sees it:
attribute access `getattr(obj, prop)` may raise (some FreeCAD properties
raise on read), so each attribute carries an `Except`. `placementAttr`,
`shapeAttr` and `viewAttr` are the `getattr(obj, _, None)`-style accesses
of the serializer. -/
structure SerObject where
  Name : String
  Label : String
  TypeId : String
  PropertiesList : List String
  attrs : List (String × Except String NativeValue) := []
  placementAttr : Option NativeValue := none
  shapeAttr : Option Shape := none
  viewAttr : Option ViewRecord := none

/-- Attribute access `getattr(obj, prop)` for the serializer: an attribute absent from the
table raises. -/
def SerObject.getattr (o : SerObject) (prop : String) :
    Except String NativeValue :=
  match o.attrs.lookup prop with
  | some r => r
  | none => .error ("object has no attribute " ++ prop)

/-- Model of `serialize.py:serialize_shape` (lines 28-37). -/
def serialize_shape : Option Shape → WireValue
  | none => .null
  | some s =>
      .dict [("Volume", .num s.Volume), ("Area", .num s.Area),
             ("VertexCount", .num s.VertexCount),
             ("EdgeCount", .num s.EdgeCount),
             ("FaceCount", .num s.FaceCount)]

/-- Model of `serialize.py:serialize_view_object` (lines 40-47). -/
def serialize_view_object : Option ViewRecord → WireValue
  | none => .null
  | some v =>
      .dict [("ShapeColor", serialize_value v.ShapeColor),
             ("Transparency", .num v.Transparency),
             ("Visibility", .bool v.Visibility)]

/-- The per-property serialization of the loop at `serialize.py` lines
71-75: a successful `getattr` is encoded by `serialize_value`; a raising
one becomes the `<error: ...>` string entry. -/
def serializeProp (obj : SerObject) (prop : String) : WireValue :=
  match obj.getattr prop with
  | .ok v => serialize_value v
  | .error e => .str ("<error: " ++ e ++ ">")

/-- Model of `serialize.py:serialize_object` (lines 50-81), generic-object branch
(the input is not a list and not a `Document`): the result mapping carries
the fixed keys `Name`, `Label`, `TypeId`, `Properties`, `Placement`,
`Shape`, `ViewObject`; `Properties` gets one entry per declared property
via `serializeProp`; `Placement` is `serialize_value(getattr(obj,
"Placement", None))` (Python `None` hits the codec's string fallback);
`ViewObject` stays the initial `{}` unless a view record is present. -/
def serialize_object (obj : SerObject) : List (String × WireValue) :=
  [("Name", .str obj.Name),
   ("Label", .str obj.Label),
   ("TypeId", .str obj.TypeId),
   ("Properties", .dict (obj.PropertiesList.map
      (fun p => (p, serializeProp obj p)))),
   ("Placement", serialize_value
      (match obj.placementAttr with | some v => v | none => .pyNone)),
   ("Shape", serialize_shape obj.shapeAttr),
   ("ViewObject",
      match obj.viewAttr with
      | none => .dict []
      | some v => serialize_view_object (some v))]

/-- Whether a task invocation's outcome is a returned Python `None` (as
opposed to any other returned value or a raised exception). -/
def isNoneResult : Except String PyRes → Bool
  | .ok .noneV => true
  | _ => false

/-! Concrete fixtures used by counterexamples and witnesses. -/

/-- A bare object declaring `Base` and `Length`, as a freshly added
`Part::Extrude`-like object would. -/
def cexObj : DocObject :=
  { Name := "Box1", TypeId := "Part::Extrude",
    PropertiesList := ["Base", "Length"] }

/-- A document containing only `cexObj`. -/
def cexDoc : Document := { Name := "Doc", objects := [cexObj] }

/-- An empty document. -/
def cexDoc0 : Document := { Name := "Doc" }

/-- A kernel whose `addObject` yields a bare object declaring `Base` and
`Length`; the `Fem::` branch is never reached by the inputs used with it. -/
def cexKernel : Kernel :=
  { addObject := fun t n =>
      { Name := n, TypeId := t, PropertiesList := ["Base", "Length"] },
    femBranch := fun d _ => (d, .strV "external Fem branch") }

/-- A create request whose `Base` property names an object that does not
exist in the target document. -/
def cexReq : Object :=
  { name := "Box1", type := some "Part::Extrude",
    properties := [("Base", .str "Missing")] }

/-- A serializer-side object with one readable and one raising property. -/
def cexSerObj : SerObject :=
  { Name := "O1", Label := "O1", TypeId := "App::FeaturePython",
    PropertiesList := ["Good", "Bad"],
    attrs := [("Good", .ok (.num 1)), ("Bad", .error "boom")] }

/-! ## Theorems -/

/-- Inversion for a successful `Except` bind: the first stage succeeded and
the continuation succeeded on its value. -/
theorem exceptBindOk {ε α β : Type} {ma : Except ε α} {f : α → Except ε β}
    {b : β} (h : (ma >>= f) = .ok b) : ∃ a, ma = .ok a ∧ f a = .ok b := by
  cases ma with
  | ok a => exact ⟨a, rfl, h⟩
  | error e => exact absurd h (by simp [Bind.bind, Except.bind])

/-- Claim C1, counterexample: `set_object_property` does NOT record a failing
property and continue. On the map `{Base: "Missing", Length: 10}` against an
object declaring both properties in a document with no object named
`Missing`, the first entry's failure raises the `AttributeError` and
processing stops: the single raised message is the whole outcome, and the
second property `Length` is never applied (the object still has no stored
value for it). -/
theorem C1_counterexample :
    setObjectProperty cexDoc cexObj
        [("Base", WireValue.str "Missing"), ("Length", WireValue.num 10)]
      = (cexObj,
         some "Property 'Base' assignment error: Referenced object 'Missing' not found.")
    ∧ (setObjectProperty cexDoc cexObj
        [("Base", WireValue.str "Missing"), ("Length", WireValue.num 10)]
        ).1.props.lookup "Length" = none := ⟨rfl, rfl⟩

/-- Claim C1 (corrected): when a property assignment fails, the Property
Applier raises an `AttributeError` carrying the property name and the
failure message, and ABORTS the batch — no entry of the map after the
failing one is processed (the outcome is independent of the remaining
entries), and the object is returned as it stood when the failure hit. -/
theorem C1_abort_on_property_failure (doc : Document) (obj : DocObject)
    (p : String) (v : WireValue) (e : String)
    (h : applyProperty doc obj p v = .error e)
    (rest : List (String × WireValue)) :
    setObjectProperty doc obj ((p, v) :: rest)
      = (obj, some ("Property '" ++ p ++ "' assignment error: " ++ e)) := by
  simp [setObjectProperty, h]

/-- Witness for C1: the abort theorem applied at the concrete failing map. -/
theorem C1_abort_witness :
    setObjectProperty cexDoc cexObj
        [("Base", WireValue.str "Missing"), ("Length", WireValue.num 10)]
      = (cexObj,
        some ("Property '" ++ "Base" ++ "' assignment error: "
          ++ "Referenced object 'Missing' not found.")) :=
  C1_abort_on_property_failure cexDoc cexObj "Base" (WireValue.str "Missing")
    "Referenced object 'Missing' not found." rfl
    [("Length", WireValue.num 10)]

/-- Claim C2, counterexample: the drain loop publishes ZERO results for a
task whose invocation returns Python `None` (the `if res is not None`
guard), so "exactly one result per task, never zero" fails. -/
theorem C2_counterexample :
    (processGuiTasks [(fun s => (s, Except.ok PyRes.noneV) : Task Unit)]
      () []).2.length ≠ 1 := by decide

/-- Claim C2 (corrected): for every task drained by the owning context,
exactly one result is published when the task's invocation returns a
non-`None` value or raises (a caught exception becomes the
`Unhandled exception in GUI task` error result); a task returning `None`
publishes zero results. Never is more than one result published per task. -/
theorem C2_one_result_unless_none (σ : Type) (t : Task σ) (s : σ)
    (resp : List PyRes) :
    (processGuiTasks [t] s resp).2.length
      = resp.length + (if isNoneResult (t s).2 then 0 else 1) := by
  rcases h : t s with ⟨s1, r⟩
  cases r with
  | ok pr =>
      cases pr <;>
        simp [processGuiTasks, processOneTask, h, isNoneRes, isNoneResult]
  | error e => simp [processGuiTasks, processOneTask, h, isNoneResult]

/-- Claim C3, counterexample: a `createObject` whose `Base` property names a
nonexistent object DOES return the reference-not-found error, but the
object created by `doc.addObject` stays registered in the document: the
document that started empty ends holding `Box1`. -/
theorem C3_counterexample :
    (createObjectGui cexKernel [cexDoc0] "Doc" cexReq).2
      = PyRes.strV "Failed to create object 'Box1' in 'Doc': Property 'Base' assignment error: Referenced object 'Missing' not found."
    ∧ ((createObjectGui cexKernel [cexDoc0] "Doc" cexReq).1.map
        (fun d => d.objects.map (fun ob => ob.Name))) = [["Box1"]] :=
  ⟨rfl, rfl⟩

/-- Claim C3 (corrected): for a non-FEM `createObject` request whose single
property is a declared `Base`/`Tool`/`Source`/`Profile` slot naming an
object absent from the document, the call returns the failure envelope with
the `Referenced object ... not found.` message, and the freshly created
object REMAINS registered in the document (the document's object list is
the old one extended with the new object). -/
theorem C3_error_but_object_registered (k : Kernel) (docs : List Document)
    (docName : String) (o : Object) (doc : Document) (p refName : String)
    (hdoc : getDocument docs docName = some doc)
    (hfem : (((o.type.getD "") == "Fem::FemMeshGmsh" && o.analysis.isSome)
        || pyStartsWith (o.type.getD "") "Fem::") = false)
    (hprops : o.properties = [(p, .str refName)])
    (hdecl : p ∈ (k.addObject (o.type.getD "") o.name).PropertiesList)
    (hslot : p = "Base" ∨ p = "Tool" ∨ p = "Source" ∨ p = "Profile")
    (hmiss : ({ doc with objects :=
        doc.objects ++ [k.addObject (o.type.getD "") o.name] } : Document
        ).getObject refName = none) :
    createObjectGui k docs docName o
      = (updateDoc docs docName
          { doc with objects :=
              doc.objects ++ [k.addObject (o.type.getD "") o.name] },
         .strV ("Failed to create object '" ++ o.name ++ "' in '" ++ docName
           ++ "': "
           ++ ("Property '" ++ p ++ "' assignment error: "
           ++ ("Referenced object '" ++ refName ++ "' not found.")))) := by
  have hplac : (p == "Placement") = false := by
    cases hp : p == "Placement" with
    | true =>
        have hq := eq_of_beq hp
        subst hq
        rcases hslot with h | h | h | h <;> exact absurd h (by decide)
    | false => rfl
  simp [createObjectGui, hdoc, hfem, hprops, setObjectProperty, applyProperty,
    hplac, hmiss, hdecl, hslot]

/-- Witness for C3: the theorem applied at the concrete request. -/
theorem C3_registered_witness :
    createObjectGui cexKernel [cexDoc0] "Doc" cexReq
      = (updateDoc [cexDoc0] "Doc"
          { cexDoc0 with objects :=
              cexDoc0.objects
                ++ [cexKernel.addObject (cexReq.type.getD "") cexReq.name] },
         .strV ("Failed to create object '" ++ cexReq.name ++ "' in '"
           ++ "Doc" ++ "': "
           ++ ("Property '" ++ "Base" ++ "' assignment error: "
           ++ ("Referenced object '" ++ "Missing" ++ "' not found.")))) :=
  C3_error_but_object_registered cexKernel [cexDoc0] "Doc" cexReq cexDoc0
    "Base" "Missing" rfl rfl rfl (by decide) (Or.inl rfl) rfl

/-- Claim C4: encoding a `Placement` and decoding the result restores the
original position and rotation axis/angle exactly (the embedding works over
exact rationals, so "within floating-point tolerance" holds with zero
error); the decode also accepts the legacy `Position` key for the position
sub-field; and the encoder always emits the canonical `Base` key, never
`Position`. -/
theorem C4_placement_roundtrip (p : Placement) :
    decodePlacement (WireValue.entriesOf (serialize_value (.placement p)))
        = .ok p
    ∧ decodePlacement [("Position", serializeVector p.Base),
        ("Rotation", serializeRotation p.Rotation)] = .ok p
    ∧ wireKeys (serialize_value (.placement p)) = ["Base", "Rotation"] :=
  ⟨rfl, rfl, rfl⟩

/-- Claim C5: a vector decode of the empty mapping yields `(0,0,0)`, of
`{z: 5}` yields `(0,0,5)`, and in general every one of the `x`,`y`,`z` keys
missing from the wire mapping contributes 0 to its component. -/
theorem C5_vector_defaults :
    decodeVector [] = .ok ⟨0, 0, 0⟩
    ∧ decodeVector [("z", .num 5)] = .ok ⟨0, 0, 5⟩
    ∧ ∀ (es : List (String × WireValue)) (v : Vector),
        decodeVector es = .ok v →
          (es.lookup "x" = none → v.x = 0)
          ∧ (es.lookup "y" = none → v.y = 0)
          ∧ (es.lookup "z" = none → v.z = 0) := by
  refine ⟨rfl, rfl, fun es v h => ?_⟩
  unfold decodeVector at h
  obtain ⟨qx, hx1, h⟩ := exceptBindOk h
  obtain ⟨qy, hy1, h⟩ := exceptBindOk h
  obtain ⟨qz, hz1, h⟩ := exceptBindOk h
  simp only [pure, Except.pure, Except.ok.injEq] at h
  subst h
  refine ⟨fun hx => ?_, fun hy => ?_, fun hz => ?_⟩
  · unfold getD at hx1
    rw [hx] at hx1
    simp [asNum] at hx1
    simp [hx1]
  · unfold getD at hy1
    rw [hy] at hy1
    simp [asNum] at hy1
    simp [hy1]
  · unfold getD at hz1
    rw [hz] at hz1
    simp [asNum] at hz1
    simp [hz1]

/-- Witness for C5: the defaulting clause applied at the mapping `{y: 3}`,
whose decode is `(0,3,0)`. -/
theorem C5_defaults_witness : Vector.x ⟨0, 3, 0⟩ = 0 :=
  ((C5_vector_defaults.2.2 [("y", WireValue.num 3)] ⟨0, 3, 0⟩ rfl).1) rfl

/-- Claim C6: the encoder is total — every native property value produces a
wire representation — and every value outside the recognized types
(primitive, vector, rotation, placement, sequence, color) is encoded by the
human-readable string fallback. -/
theorem C6_encode_total (v : NativeValue) :
    (∃ w, serialize_value v = w)
    ∧ (isRecognized v = false → ∃ s, serialize_value v = .str s) := by
  refine ⟨⟨serialize_value v, rfl⟩, ?_⟩
  cases v <;> simp [isRecognized, serialize_value]

/-- Witness for C6: an unrecognized value encodes to a string. -/
theorem C6_fallback_witness :
    ∃ s, serialize_value (NativeValue.other "<Part::TopoShape>") = .str s :=
  (C6_encode_total (NativeValue.other "<Part::TopoShape>")).2 rfl

/-- Auxiliary for C7: draining a queue of log-appending tasks appends
exactly the submitted ids, in submission order, to whatever log was there. -/
theorem processLogTasks (ids : List ℕ) (init : List ℕ) (resp : List PyRes) :
    (processGuiTasks (ids.map logTask) init resp).1 = init ++ ids := by
  induction ids generalizing init resp with
  | nil => simp [processGuiTasks]
  | cons i ids ih =>
      simp only [List.map_cons, processGuiTasks, processOneTask, logTask,
        isNoneRes]
      rw [ih]
      simp

/-- Claim C7: the Execution Sequencer executes tasks in submission order —
submitting tasks that each append their id to a shared log leaves the log
equal to the submission order. The drain loop runs on the single GUI
context and invokes one task at a time, so no two tasks run concurrently in
the model by construction. -/
theorem C7_submission_order (ids : List ℕ) :
    (processGuiTasks (ids.map logTask) [] []).1 = ids := by
  simpa using processLogTasks ids [] []

/-- Claim C8, counterexample: `editObject` on a missing document does NOT
return the typed `Document '...' not found.` error. The bare
`FreeCAD.getDocument` call at `rpc_server.py:319` raises for a missing
document before the falsiness check — that check is dead code — so the
owning loop's handler publishes the caught-exception message, and that is
the envelope the endpoint returns. -/
theorem C8_counterexample :
    (edit_object [cexDoc] "Nope" "Box1" []).2
        = RpcResult.failure (.strV ("Unhandled exception in GUI task: "
            ++ unknownDocMsg "Nope"))
    ∧ (edit_object [cexDoc] "Nope" "Box1" []).2
        ≠ RpcResult.failure (.strV "Document 'Nope' not found.\n") :=
  ⟨rfl, by decide⟩

/-- Claim C8 (corrected): `editObject` on a missing document returns a
failure envelope carrying the owning loop's caught-exception message
(`Unhandled exception in GUI task:` wrapping the kernel's unknown-document
error) — the typed document-not-found check at `rpc_server.py:320-322` is
dead code because `FreeCAD.getDocument` raises rather than returning a
falsy value. On an existing document with an object name not present in
it, `doc.getObject` genuinely returns `None` and the call returns the typed
object-not-found failure envelope. In both cases the endpoint receives an
envelope — the raise is caught by the owning loop, so neither case crashes
the owning context or the endpoint — and the document table is untouched. -/
theorem C8_missing_doc_and_object (docs : List Document)
    (docName objName : String) (properties : List (String × WireValue)) :
    (getDocument docs docName = none →
      edit_object docs docName objName properties
        = (docs, .failure (.strV ("Unhandled exception in GUI task: "
            ++ unknownDocMsg docName))))
    ∧ (∀ doc, getDocument docs docName = some doc →
        doc.getObject objName = none →
        edit_object docs docName objName properties
          = (docs, .failure (.strV ("Object '" ++ objName
              ++ "' not found in document '" ++ docName ++ "'.\n")))) := by
  constructor
  · intro h
    simp [edit_object, editObjectGui, h]
  · intro doc hdoc hobj
    simp [edit_object, editObjectGui, hdoc, hobj]

/-- Witness for C8: both failure envelopes at concrete calls. -/
theorem C8_missing_witness :
    edit_object [cexDoc] "Nope" "Box1" []
        = ([cexDoc],
           .failure (.strV ("Unhandled exception in GUI task: "
             ++ unknownDocMsg "Nope")))
    ∧ edit_object [cexDoc] "Doc" "Ghost" []
        = ([cexDoc],
           .failure (.strV ("Object '" ++ "Ghost"
             ++ "' not found in document '" ++ "Doc" ++ "'.\n"))) :=
  ⟨(C8_missing_doc_and_object [cexDoc] "Nope" "Box1" []).1 rfl,
   (C8_missing_doc_and_object [cexDoc] "Doc" "Ghost" []).2 cexDoc rfl rfl⟩

/-- Auxiliary for C9: looking up a key produced by mapping a function over
the key list itself finds that key's image. -/
theorem lookupMapSelf (g : String → WireValue) :
    ∀ (l : List String) (p : String), p ∈ l →
      (l.map (fun q => (q, g q))).lookup p = some (g p) := by
  intro l
  induction l with
  | nil => intro p hp; cases hp
  | cons a l ih =>
      intro p hp
      by_cases h : p = a
      · subst h
        simp [List.lookup]
      · have hmem : p ∈ l := by
          cases hp with
          | head => exact absurd rfl h
          | tail _ hm => exact hm
        have hb : (p == a) = false := by
          cases hb2 : p == a with
          | true => exact absurd (eq_of_beq hb2) h
          | false => rfl
        simp [List.lookup, hb, ih p hmem]

/-- Claim C9: `serialize_object` always produces the keys `Name`, `Label`,
`TypeId`, `Properties`, `Placement`, `Shape`, `ViewObject`, and EVERY
declared property gets a `Properties` entry — the serialization of its
value when the attribute read succeeds, the `<error: ...>` string when it
raises — so one raising property never prevents the others from being
serialized and never aborts the whole object. -/
theorem C9_serialize_object_robust (obj : SerObject) :
    (serialize_object obj).map Prod.fst
        = ["Name", "Label", "TypeId", "Properties", "Placement", "Shape",
           "ViewObject"]
    ∧ ∀ p ∈ obj.PropertiesList,
        (WireValue.entriesOf
            (getD (serialize_object obj) "Properties" .null)).lookup p
          = some (match obj.getattr p with
              | .ok v => serialize_value v
              | .error e => .str ("<error: " ++ e ++ ">")) := by
  refine ⟨rfl, fun p hp => ?_⟩
  have hdict : (WireValue.entriesOf
      (getD (serialize_object obj) "Properties" .null))
      = obj.PropertiesList.map (fun q => (q, serializeProp obj q)) := rfl
  rw [hdict, lookupMapSelf (serializeProp obj) obj.PropertiesList p hp]
  rfl

/-- Witness for C9: the raising property of `cexSerObj` yields its error
string entry. -/
theorem C9_error_entry_witness :
    (WireValue.entriesOf
        (getD (serialize_object cexSerObj) "Properties" .null)).lookup "Bad"
      = some (.str ("<error: " ++ "boom" ++ ">")) :=
  (C9_serialize_object_robust cexSerObj).2 "Bad" (by decide)

/-- Claim C10: with an `Axis` mapping present but partial, the axis `x` and
`y` components default to 0 while `z` defaults to 1: `Rotation.Axis = {x:q}`
decodes to axis `(q,0,1)`, and in particular at `q = 1` the axis is NOT
`(1,0,0)`. -/
theorem C10_axis_z_default (q : ℚ) :
    decodePlacement [("Rotation", .dict [("Axis", .dict [("x", .num q)])])]
        = .ok ⟨⟨0, 0, 0⟩, ⟨⟨q, 0, 1⟩, 0⟩⟩
    ∧ decodePlacement
        [("Rotation", .dict [("Axis", .dict [("x", .num 1)])])]
        ≠ .ok ⟨⟨0, 0, 0⟩, ⟨⟨1, 0, 0⟩, 0⟩⟩ := by
  refine ⟨rfl, fun h => ?_⟩
  have h1 : decodePlacement
      [("Rotation", .dict [("Axis", .dict [("x", .num 1)])])]
      = .ok (⟨⟨0, 0, 0⟩, ⟨⟨1, 0, 1⟩, 0⟩⟩ : Placement) := rfl
  rw [h1] at h
  exact absurd (Except.ok.inj h) (by decide)

end FreeCADMCP
